import Mathlib

set_option autoImplicit false
set_option linter.unusedVariables false
set_option linter.unreachableTactic false
set_option linter.unnecessarySeqFocus false
set_option linter.unusedTactic false

namespace PythonGrader

/-!
Shallow embedding of the Python-grader service (src/app/main.py,
src/app/schemas.py, src/python-grader/app/parse_pdfs.py).

The external world (HTTP fetch, the OpenAI model call, the Redis store,
callback delivery, the fitz PDF reader) is abstracted as oracle inputs:
each fallible collaborator is a value of type `Except String _` whose
`.error` case stands for the Python exception (carrying `str(e)`), and the
parsed JSON of a model response is passed in already structured.  All
control flow, string manipulation and dictionary manipulation of the
Python source is embedded directly.
-/

/-! ### Python string primitives (kernel-reducible re-implementations) -/

/-- Python `str.lower()` (ASCII). -/
def pyLower (s : String) : String := ⟨s.data.map Char.toLower⟩

/-- Python `str.replace(pat, rep)` for a single-character pattern,
as used in `main.py` (`.replace(" ", "_")`). -/
def pyReplaceChar (pat rep : Char) (s : String) : String :=
  ⟨s.data.map (fun c => if c = pat then rep else c)⟩

/-- Python whitespace characters recognised by `str.strip()`. -/
def isPySpace (c : Char) : Bool :=
  c = ' ' || c = '\t' || c = '\n' || c = '\r' || c = '\x0b' || c = '\x0c'

/-- Python `str.strip()`. -/
def pyStrip (s : String) : String :=
  ⟨((s.data.dropWhile isPySpace).reverse.dropWhile isPySpace).reverse⟩

/-- Python `sep.join(l)`. -/
def joinWith (sep : String) : List String → String
  | [] => ""
  | a :: as => as.foldl (fun acc x => acc ++ sep ++ x) a

/-! ### Python `dict` as an insertion-ordered association list -/

/-- `d.get(k)` / `k in d`: first (unique) binding of `k`. -/
def dictFind? {α : Type} (k : String) : List (String × α) → Option α
  | [] => none
  | p :: rest => if p.1 = k then some p.2 else dictFind? k rest

/-- Python `k in d`. -/
def dictContains {α : Type} (d : List (String × α)) (k : String) : Bool :=
  (dictFind? k d).isSome

/-- Python `d[k] = v`: overwrite in place if present, else append. -/
def dictInsert {α : Type} (k : String) (v : α) : List (String × α) → List (String × α)
  | [] => [(k, v)]
  | p :: rest => if p.1 = k then (p.1, v) :: rest else p :: dictInsert k v rest

/-! ### Schemas (src/app/schemas.py), restricted to the fields the code computes -/

/-- `schemas.ConceptScore`. -/
structure ConceptScore where
  earned : Int
  max : Int
  feedback : String
deriving DecidableEq

/-- `schemas.BlueprintConcept`. -/
structure BlueprintConcept where
  name : String
  weight : Int
  description : String
deriving DecidableEq

/-- `schemas.GradingBlueprint` (without the `created_at` timestamp). -/
structure GradingBlueprint where
  concepts : List BlueprintConcept
  expected_steps : List String
  key_facts : List String
  rubric : List (String × Int)
  total_points : Int
deriving DecidableEq

/-- `schemas.GradingResult` (without the `graded_at` timestamp and the
always-`None` `plagiarism_details`). -/
structure GradingResult where
  score : Int
  max_score : Int
  concept_scores : List (String × ConceptScore)
  overall_feedback : String
  strengths : List String
  improvements : List String
  plagiarism_flag : Bool
deriving DecidableEq

/-- `schemas.BlueprintCallbackPayload` (the fixed `action` field omitted). -/
structure BlueprintCallbackPayload where
  assignment_id : String
  blueprint : Option GradingBlueprint
  error : Option String
deriving DecidableEq

/-- `schemas.GradingCallbackPayload` (the fixed `action` field omitted). -/
structure GradingCallbackPayload where
  submission_id : String
  grading_result : GradingResult
deriving DecidableEq

/-- The rubric `dict` passed to `analyze_solution_sync`: only its declared
total (`total_marks`, 100 in `get_default_rubric`) matters for the claims;
the criteria are interpolated into the prompt string only. -/
structure GradingRubric where
  total_marks : Int
  criteria : List String
deriving DecidableEq

/-! ### Grading engine: `grade_submission_sync` (main.py lines 238-310)

The OpenAI call plus `json.loads` is abstracted as the already-parsed
model response below; `.get` with a default is modelled with `Option`. -/

/-- One element of the `rubric_breakdown` list of the model output. -/
structure BreakdownEntry where
  criterion : Option String
  awarded_marks : Option Int
  max_marks : Option Int
  evaluation : Option String
deriving DecidableEq

/-- The parsed JSON object returned by the grading model call. -/
structure GradeModelResponse where
  overall_obtained : Option Int
  overall_maximum : Option Int
  rubric_breakdown : List BreakdownEntry
  final_verdict_summary : Option String
  actionable_feedback : List String
deriving DecidableEq

/-- The `key_map` literal of `grade_submission_sync`. -/
def key_map : List (String × String) :=
  [("concept_coverage", "concept_coverage"),
   ("logical_reasoning", "reasoning_quality"),
   ("reasoning", "reasoning_quality"),
   ("reasoning_quality", "reasoning_quality"),
   ("logical_reasoning_&_structure", "reasoning_quality"),
   ("correctness", "correctness"),
   ("correctness_&_accuracy", "correctness"),
   ("clarity", "clarity"),
   ("clarity_&_presentation", "clarity")]

/-- `breakdown.get("criterion", "").lower().replace(" ", "_")`. -/
def lowerUnderscore (s : String) : String := pyReplaceChar ' ' '_' (pyLower s)

/-- `key = key_map.get(criterion, criterion)` applied to the lowered,
underscored label. -/
def normalizeCriterion (s : String) : String :=
  let criterion := lowerUnderscore s
  (dictFind? criterion key_map).getD criterion

/-- The normalized key one breakdown entry lands on. -/
def normKey (b : BreakdownEntry) : String := normalizeCriterion (b.criterion.getD "")

/-- The `for breakdown in result.get("rubric_breakdown", [])` loop filling
`concept_scores`. -/
def buildConceptScores (entries : List BreakdownEntry) : List (String × ConceptScore) :=
  entries.foldl
    (fun acc b =>
      dictInsert (normKey b)
        ⟨b.awarded_marks.getD 0, b.max_marks.getD 0, b.evaluation.getD ""⟩ acc)
    []

/-- The fixed table of the "Ensure all 4 criteria exist" loop. -/
def canonicalDefaults : List (String × Int) :=
  [("concept_coverage", 30), ("reasoning_quality", 25), ("correctness", 30), ("clarity", 15)]

/-- One iteration of the "Ensure all 4 criteria exist" loop. -/
def ensureStep (acc : List (String × ConceptScore)) (kv : String × Int) :
    List (String × ConceptScore) :=
  if dictContains acc kv.1 then acc else dictInsert kv.1 ⟨0, kv.2, "Not evaluated"⟩ acc

/-- The whole "Ensure all 4 criteria exist" loop. -/
def ensureCanonical (scores : List (String × ConceptScore)) : List (String × ConceptScore) :=
  canonicalDefaults.foldl ensureStep scores

/-- `grade_submission_sync`, as a function of the parsed model response.
The Python parameters (`student_text`, `teacher_text`, `blueprint`,
`rubric`, `metadata`) only feed the prompt string and therefore the
model-response oracle. -/
def grade_submission_sync (resp : GradeModelResponse) : GradingResult :=
  ⟨resp.overall_obtained.getD 0,
   resp.overall_maximum.getD 100,
   ensureCanonical (buildConceptScores resp.rubric_breakdown),
   resp.final_verdict_summary.getD "",
   [],
   resp.actionable_feedback,
   false⟩

/-! ### Grading engine: `analyze_solution_sync` (main.py lines 179-235) -/

/-- The parsed JSON object returned by the analysis model call;
`none` models an absent field (`result.get(..., default)`). -/
structure AnalyzeModelResponse where
  concepts : Option (List BlueprintConcept)
  expected_steps : Option (List String)
  key_facts : Option (List String)
  rubric : Option (List (String × Int))
deriving DecidableEq

/-- `analyze_solution_sync`, as a function of the parsed model response and
the rubric argument.  Note the source returns `total_points=100`
unconditionally. -/
def analyze_solution_sync (resp : AnalyzeModelResponse) (rubric : GradingRubric) :
    GradingBlueprint :=
  ⟨resp.concepts.getD [],
   resp.expected_steps.getD [],
   resp.key_facts.getD [],
   resp.rubric.getD
     [("concept_coverage", 30), ("reasoning_quality", 25), ("correctness", 30), ("clarity", 15)],
   100⟩

/-! ### `extract_text_from_pdf` (src/python-grader/app/parse_pdfs.py)

The filesystem is an oracle `fs : String → Option (List String)` mapping a
path to the list of `page.get_text("text")` results of the PDF stored
there (`none` when `Path(pdf_path).exists()` is false); the fitz document
is abstracted as that page list.  `pathSuffix` re-implements
`pathlib.Path(...).suffix`. -/

/-- Split a character list at a separator character (every occurrence). -/
def splitOnChar (sep : Char) : List Char → List (List Char)
  | [] => [[]]
  | c :: rest =>
    match splitOnChar sep rest with
    | [] => [[]]
    | g :: gs => if c = sep then [] :: g :: gs else (c :: g) :: gs

/-- `pathlib.Path(p).name`: the last nonempty `/`-separated component. -/
def pathName (p : String) : String :=
  ⟨(((splitOnChar '/' p.data).filter (fun c => c ≠ [])).getLastD [])⟩

/-- `pathlib.Path(p).suffix`: from the last dot of the name to its end,
empty when the only dot is leading or the last dot is trailing. -/
def pathSuffix (p : String) : String :=
  let parts := splitOnChar '.' (pathName p).data
  match parts with
  | [] => ""
  | [_] => ""
  | _ =>
    let last := parts.getLastD []
    if last = [] then ""
    else if parts.length = 2 && parts.headD [] = [] then ""
    else ⟨'.' :: last⟩

/-- The page separator literal of `parse_pdfs.py`. -/
def pageBreakSep : String := "\n\n--- PAGE BREAK ---\n\n"

/-- `extract_text_from_pdf`; `.error` models a raised exception with its
message. -/
def extract_text_from_pdf (fs : String → Option (List String)) (pdf_path : String) :
    Except String String :=
  match fs pdf_path with
  | none => .error ("PDF not found: " ++ pdf_path)
  | some pages =>
    if pyLower (pathSuffix pdf_path) ≠ ".pdf" then .error "Input file is not a PDF"
    else if pages.length = 0 then .error "PDF has no pages"
    else if (pages.map pyStrip).filter (fun t => t ≠ "") = [] then
      .error "No extractable text found in PDF"
    else .ok (joinWith pageBreakSep ((pages.map pyStrip).filter (fun t => t ≠ "")))

/-! ### Job orchestrator (main.py lines 315-423)

One run of a background task is embedded as a function of an environment
describing every external collaborator:

* `storePresent` — whether `redis_client` is not `None`;
* `storeSet v` — the behaviour of `await redis_client.set(key, v)` for
  the key of this job (`.error e` models a raised exception);
* `fetch` — `await download_pdf(url)`: the temp-file path, or a raised
  transport error;
* `extractStep p` — `extract_text_from_pdf(p)` on the fetched file;
* engine call — `analyze_solution_sync` / `grade_submission_sync`, whose
  model call or JSON parse may raise;
* `callbackOk` — the boolean returned by `send_callback` (which catches
  its own exceptions and never raises); the source ignores it.

The run records the externally observable trace: statuses successfully
written for the key of this job, callback payloads handed to `send_callback`,
whether/which temp file the fetch produced, the paths passed to
`os.unlink`, the exception caught by the `except` block (if any), and the
exception escaping the task (if any). -/

/-- Environment of one `process_blueprint_generation` run. -/
structure BlueprintEnv where
  storePresent : Bool
  storeSet : String → Except String Unit
  fetch : Except String String
  extractStep : String → Except String String
  analyzeStep : String → Except String GradingBlueprint
  callbackOk : Bool

/-- Observable trace of one `process_blueprint_generation` run. -/
structure BlueprintRun where
  statuses : List String
  callbacks : List BlueprintCallbackPayload
  fetchedPath : Option String
  unlinked : List String
  caught : Option String
  raised : Option String
deriving DecidableEq

/-- The `except Exception as e` block of `process_blueprint_generation`:
send an error callback, then (if the client exists) write the
`failed:<reason>` status — that very write may itself raise, which then
escapes the task.  No `os.unlink` occurs on this path. -/
def blueprintExceptBlock (env : BlueprintEnv) (assignment_id : String)
    (statuses : List String) (callbacks : List BlueprintCallbackPayload)
    (fetchedPath : Option String) (e : String) : BlueprintRun :=
  let callbacks := callbacks ++ [⟨assignment_id, none, some e⟩]
  if env.storePresent then
    match env.storeSet ("failed:" ++ e) with
    | .ok _ => ⟨statuses ++ ["failed:" ++ e], callbacks, fetchedPath, [], some e, none⟩
    | .error e2 => ⟨statuses, callbacks, fetchedPath, [], some e, some e2⟩
  else ⟨statuses, callbacks, fetchedPath, [], some e, none⟩

/-- `process_blueprint_generation` (main.py lines 315-361). -/
def process_blueprint_generation (env : BlueprintEnv) (assignment_id : String) :
    BlueprintRun :=
  match (if env.storePresent then env.storeSet "processing" else Except.ok ()) with
  | .error e => blueprintExceptBlock env assignment_id [] [] none e
  | .ok _ =>
    let statuses := if env.storePresent then ["processing"] else []
    match env.fetch with
    | .error e => blueprintExceptBlock env assignment_id statuses [] none e
    | .ok pdf_path =>
      match env.extractStep pdf_path with
      | .error e => blueprintExceptBlock env assignment_id statuses [] (some pdf_path) e
      | .ok solution_text =>
        match env.analyzeStep solution_text with
        | .error e => blueprintExceptBlock env assignment_id statuses [] (some pdf_path) e
        | .ok blueprint =>
          let callbacks : List BlueprintCallbackPayload :=
            [⟨assignment_id, some blueprint, none⟩]
          match (if env.storePresent then env.storeSet "completed" else Except.ok ()) with
          | .error e =>
            blueprintExceptBlock env assignment_id statuses callbacks (some pdf_path) e
          | .ok _ =>
            let statuses := statuses ++ (if env.storePresent then ["completed"] else [])
            ⟨statuses, callbacks, some pdf_path, [pdf_path], none, none⟩

/-- Environment of one `process_grading` run. -/
structure GradingEnv where
  storePresent : Bool
  storeSet : String → Except String Unit
  fetch : Except String String
  extractStep : String → Except String String
  gradeStep : String → String → Except String GradingResult
  callbackOk : Bool

/-- Observable trace of one `process_grading` run. -/
structure GradingRun where
  statuses : List String
  callbacks : List GradingCallbackPayload
  fetchedPath : Option String
  unlinked : List String
  caught : Option String
  raised : Option String
deriving DecidableEq

/-- The `except Exception as e` block of `process_grading`: no callback is
sent; only the `failed:<reason>` status write is attempted (and may itself
raise).  No `os.unlink` occurs on this path. -/
def gradingExceptBlock (env : GradingEnv) (submission_id : String)
    (statuses : List String) (callbacks : List GradingCallbackPayload)
    (fetchedPath : Option String) (e : String) : GradingRun :=
  if env.storePresent then
    match env.storeSet ("failed:" ++ e) with
    | .ok _ => ⟨statuses ++ ["failed:" ++ e], callbacks, fetchedPath, [], some e, none⟩
    | .error e2 => ⟨statuses, callbacks, fetchedPath, [], some e, some e2⟩
  else ⟨statuses, callbacks, fetchedPath, [], some e, none⟩

/-- `process_grading` (main.py lines 364-423). -/
def process_grading (env : GradingEnv) (submission_id : String)
    (blueprint : GradingBlueprint) : GradingRun :=
  match (if env.storePresent then env.storeSet "processing" else Except.ok ()) with
  | .error e => gradingExceptBlock env submission_id [] [] none e
  | .ok _ =>
    let statuses := if env.storePresent then ["processing"] else []
    match env.fetch with
    | .error e => gradingExceptBlock env submission_id statuses [] none e
    | .ok pdf_path =>
      match env.extractStep pdf_path with
      | .error e => gradingExceptBlock env submission_id statuses [] (some pdf_path) e
      | .ok student_text =>
        let teacher_text := joinWith "\n" (blueprint.expected_steps ++ blueprint.key_facts)
        match env.gradeStep student_text teacher_text with
        | .error e => gradingExceptBlock env submission_id statuses [] (some pdf_path) e
        | .ok grading_result =>
          let callbacks : List GradingCallbackPayload :=
            [⟨submission_id, grading_result⟩]
          match (if env.storePresent then env.storeSet "completed" else Except.ok ()) with
          | .error e => gradingExceptBlock env submission_id statuses callbacks (some pdf_path) e
          | .ok _ =>
            let statuses := statuses ++ (if env.storePresent then ["completed"] else [])
            ⟨statuses, callbacks, some pdf_path, [pdf_path], none, none⟩

/-! ### Dictionary lemmas -/

theorem dictFind?_insert_self {α : Type} (k : String) (v : α) (d : List (String × α)) :
    dictFind? k (dictInsert k v d) = some v := by
  induction d with
  | nil => simp [dictInsert, dictFind?]
  | cons p rest ih =>
    by_cases h : p.1 = k
    · simp [dictInsert, h, dictFind?]
    · simp [dictInsert, h, dictFind?, ih]

theorem dictFind?_insert_ne {α : Type} {k k2 : String} (h : k2 ≠ k) (v : α)
    (d : List (String × α)) : dictFind? k2 (dictInsert k v d) = dictFind? k2 d := by
  have hk : k ≠ k2 := fun he => h he.symm
  induction d with
  | nil => simp [dictInsert, dictFind?, hk]
  | cons p rest ih =>
    by_cases hp : p.1 = k
    · simp [dictInsert, hp, dictFind?, hk]
    · simp [dictInsert, hp, dictFind?, ih, h]

theorem dictContains_insert {α : Type} (k k2 : String) (v : α) (d : List (String × α)) :
    dictContains (dictInsert k v d) k2 = (k2 == k || dictContains d k2) := by
  by_cases h : k2 = k
  · subst h
    simp [dictContains, dictFind?_insert_self]
  · simp [dictContains, dictFind?_insert_ne h, h]

/-! ### Lemmas on the completeness loop of `grade_submission_sync` -/

theorem ensureStep_contains_self (acc : List (String × ConceptScore)) (kv : String × Int) :
    dictContains (ensureStep acc kv) kv.1 = true := by
  unfold ensureStep
  split
  · assumption
  · simp [dictContains, dictFind?_insert_self]

theorem ensureStep_contains_mono (acc : List (String × ConceptScore)) (kv : String × Int)
    (k : String) (h : dictContains acc k = true) :
    dictContains (ensureStep acc kv) k = true := by
  unfold ensureStep
  split
  · exact h
  · simp [dictContains_insert, h]

theorem ensureStep_find_ne (acc : List (String × ConceptScore)) (kv : String × Int)
    (k : String) (h : k ≠ kv.1) :
    dictFind? k (ensureStep acc kv) = dictFind? k acc := by
  unfold ensureStep
  split
  · rfl
  · exact dictFind?_insert_ne h _ _

theorem ensureStep_contains_ne (acc : List (String × ConceptScore)) (kv : String × Int)
    (k : String) (h : k ≠ kv.1) :
    dictContains (ensureStep acc kv) k = dictContains acc k := by
  simp [dictContains, ensureStep_find_ne _ _ _ h]

theorem ensureStep_find_absent (acc : List (String × ConceptScore)) (k : String) (m : Int)
    (h : dictContains acc k = false) :
    dictFind? k (ensureStep acc (k, m)) = some ⟨0, m, "Not evaluated"⟩ := by
  unfold ensureStep
  simp only [h]
  simp [dictFind?_insert_self]

theorem ensureCanonical_eq (scores : List (String × ConceptScore)) :
    ensureCanonical scores =
      ensureStep (ensureStep (ensureStep (ensureStep scores ("concept_coverage", 30))
        ("reasoning_quality", 25)) ("correctness", 30)) ("clarity", 15) := rfl

theorem ensureCanonical_contains (scores : List (String × ConceptScore)) (k : String)
    (hk : k ∈ canonicalDefaults.map Prod.fst) :
    dictContains (ensureCanonical scores) k = true := by
  rw [ensureCanonical_eq]
  simp only [canonicalDefaults, List.map, List.mem_cons, List.not_mem_nil, or_false] at hk
  rcases hk with h | h | h | h <;> subst h
  · exact ensureStep_contains_mono _ _ _ (ensureStep_contains_mono _ _ _
      (ensureStep_contains_mono _ _ _ (ensureStep_contains_self scores ("concept_coverage", 30))))
  · exact ensureStep_contains_mono _ _ _ (ensureStep_contains_mono _ _ _
      (ensureStep_contains_self _ ("reasoning_quality", 25)))
  · exact ensureStep_contains_mono _ _ _ (ensureStep_contains_self _ ("correctness", 30))
  · exact ensureStep_contains_self _ ("clarity", 15)

theorem ensureCanonical_find_absent (scores : List (String × ConceptScore)) (k : String)
    (m : Int) (hk : (k, m) ∈ canonicalDefaults) (h : dictContains scores k = false) :
    dictFind? k (ensureCanonical scores) = some ⟨0, m, "Not evaluated"⟩ := by
  rw [ensureCanonical_eq]
  simp only [canonicalDefaults, List.mem_cons, List.not_mem_nil, or_false,
    Prod.mk.injEq] at hk
  rcases hk with ⟨h1, h2⟩ | ⟨h1, h2⟩ | ⟨h1, h2⟩ | ⟨h1, h2⟩ <;> subst h1 <;> subst h2
  · rw [ensureStep_find_ne _ _ _ (by decide), ensureStep_find_ne _ _ _ (by decide),
      ensureStep_find_ne _ _ _ (by decide)]
    exact ensureStep_find_absent _ _ _ h
  · rw [ensureStep_find_ne _ _ _ (by decide), ensureStep_find_ne _ _ _ (by decide)]
    exact ensureStep_find_absent _ _ _
      (by rw [ensureStep_contains_ne _ _ _ (by decide)]; exact h)
  · rw [ensureStep_find_ne _ _ _ (by decide)]
    exact ensureStep_find_absent _ _ _
      (by rw [ensureStep_contains_ne _ _ _ (by decide),
        ensureStep_contains_ne _ _ _ (by decide)]; exact h)
  · exact ensureStep_find_absent _ _ _
      (by rw [ensureStep_contains_ne _ _ _ (by decide), ensureStep_contains_ne _ _ _ (by decide),
        ensureStep_contains_ne _ _ _ (by decide)]; exact h)

/-- Every key of the dictionary built from the rubric breakdown is the
normalized key of some breakdown entry. -/
theorem contains_buildConceptScores_aux (entries : List BreakdownEntry) :
    ∀ (acc : List (String × ConceptScore)) (k : String),
      dictContains
        (entries.foldl
          (fun acc b =>
            dictInsert (normKey b)
              ⟨b.awarded_marks.getD 0, b.max_marks.getD 0, b.evaluation.getD ""⟩ acc)
          acc) k = true →
      dictContains acc k = true ∨ k ∈ entries.map normKey := by
  induction entries with
  | nil => intro acc k h; exact Or.inl h
  | cons b bs ih =>
    intro acc k h
    simp only [List.foldl] at h
    rcases ih _ k h with h1 | h2
    · rw [dictContains_insert] at h1
      rcases Bool.or_eq_true_iff.mp h1 with hb | hacc
      · exact Or.inr (by rw [List.map_cons, beq_iff_eq.mp hb]; exact List.mem_cons_self _ _)
      · exact Or.inl hacc
    · exact Or.inr (by rw [List.map_cons]; exact List.mem_cons_of_mem _ h2)

theorem contains_buildConceptScores_false (entries : List BreakdownEntry) (k : String)
    (h : k ∉ entries.map normKey) :
    dictContains (buildConceptScores entries) k = false := by
  cases hc : dictContains (buildConceptScores entries) k with
  | false => rfl
  | true =>
    rcases contains_buildConceptScores_aux entries [] k hc with h1 | h2
    · simp [dictContains, dictFind?] at h1
    · exact absurd h2 h

/-! ### Claim theorems: grading engine -/

/-- C5.  Criterion-name normalization maps "Correctness & Accuracy",
"correctness_&_accuracy" and "CORRECTNESS" to `correctness`, and passes
every label not in the lookup table through lowercased with spaces
replaced by underscores. -/
theorem normalization_canonicalizes_criterion_labels :
    normalizeCriterion "Correctness & Accuracy" = "correctness" ∧
    normalizeCriterion "correctness_&_accuracy" = "correctness" ∧
    normalizeCriterion "CORRECTNESS" = "correctness" ∧
    ∀ s : String, dictFind? (lowerUnderscore s) key_map = none →
      normalizeCriterion s = lowerUnderscore s := by
  refine ⟨by decide, by decide, by decide, ?_⟩
  intro s h
  simp [normalizeCriterion, h]

/-- Witness for C5 at the unrecognized label "Some Custom Criterion". -/
theorem normalization_canonicalizes_criterion_labels_witness :
    dictFind? (lowerUnderscore "Some Custom Criterion") key_map = none ∧
    normalizeCriterion "Some Custom Criterion" = lowerUnderscore "Some Custom Criterion" :=
  ⟨by decide,
   normalization_canonicalizes_criterion_labels.2.2.2 "Some Custom Criterion" (by decide)⟩

/-- C4.  Every canonical key is present in `concept_scores`, and a
canonical key that no normalized breakdown entry produced is synthesized
as `earned = 0`, `max` from the fixed table, feedback "Not evaluated". -/
theorem canonical_criteria_completeness (resp : GradeModelResponse) (k : String) (m : Int)
    (hk : (k, m) ∈ canonicalDefaults) :
    dictContains (grade_submission_sync resp).concept_scores k = true ∧
    (k ∉ resp.rubric_breakdown.map normKey →
      dictFind? k (grade_submission_sync resp).concept_scores =
        some ⟨0, m, "Not evaluated"⟩) := by
  constructor
  · show dictContains (ensureCanonical (buildConceptScores resp.rubric_breakdown)) k = true
    exact ensureCanonical_contains _ k (List.mem_map_of_mem Prod.fst hk)
  · intro habs
    show dictFind? k (ensureCanonical (buildConceptScores resp.rubric_breakdown)) = _
    exact ensureCanonical_find_absent _ k m hk (contains_buildConceptScores_false _ k habs)

/-- A model response whose single breakdown entry normalizes to
`correctness`, leaving the other three canonical criteria absent. -/
def gradeRespA : GradeModelResponse :=
  ⟨some 20, some 100, [⟨some "Correctness & Accuracy", some 25, some 30, some "good"⟩],
   some "ok", []⟩

/-- Witness for C4: `clarity` is absent from `gradeRespA` and gets
synthesized with `earned = 0`, `max = 15`, feedback "Not evaluated". -/
theorem canonical_criteria_completeness_witness :
    (("clarity", (15 : Int)) ∈ canonicalDefaults) ∧
    ("clarity" ∉ gradeRespA.rubric_breakdown.map normKey) ∧
    dictFind? "clarity" (grade_submission_sync gradeRespA).concept_scores =
      some ⟨0, 15, "Not evaluated"⟩ :=
  ⟨by decide, by decide,
   (canonical_criteria_completeness gradeRespA "clarity" 15 (by decide)).2 (by decide)⟩

/-- A model response that awards more marks than the criterion maximum. -/
def gradeRespOver : GradeModelResponse :=
  ⟨some 50, some 100, [⟨some "correctness", some 50, some 30, some "overcredited"⟩],
   none, []⟩

/-- C6, counterexample: the code copies `awarded_marks`/`max_marks` from
the model verbatim, so the canonical `correctness` entry can carry
`earned = 50 > max = 30`. -/
theorem earned_can_exceed_max :
    (("correctness", (30 : Int)) ∈ canonicalDefaults) ∧
    dictFind? "correctness" (grade_submission_sync gradeRespOver).concept_scores =
      some ⟨50, 30, "overcredited"⟩ ∧
    ¬ ((50 : Int) ≤ (30 : Int)) := ⟨by decide, by decide, by decide⟩

/-- C6, amended: all four canonical keys are present, and every canonical
criterion the code itself synthesizes (i.e. one no breakdown entry
produced) satisfies `0 ≤ earned ≤ max`; entries copied from the model are
not validated. -/
theorem canonical_criteria_bounds_for_synthesized (resp : GradeModelResponse) (k : String)
    (m : Int) (hk : (k, m) ∈ canonicalDefaults) :
    dictContains (grade_submission_sync resp).concept_scores k = true ∧
    (k ∉ resp.rubric_breakdown.map normKey →
      ∃ cs : ConceptScore,
        dictFind? k (grade_submission_sync resp).concept_scores = some cs ∧
        0 ≤ cs.earned ∧ cs.earned ≤ cs.max) := by
  constructor
  · show dictContains (ensureCanonical (buildConceptScores resp.rubric_breakdown)) k = true
    exact ensureCanonical_contains _ k (List.mem_map_of_mem Prod.fst hk)
  · intro habs
    refine ⟨⟨0, m, "Not evaluated"⟩, ?_, le_refl 0, ?_⟩
    · show dictFind? k (ensureCanonical (buildConceptScores resp.rubric_breakdown)) = _
      exact ensureCanonical_find_absent _ k m hk (contains_buildConceptScores_false _ k habs)
    · have hk2 := hk
      simp only [canonicalDefaults, List.mem_cons, List.not_mem_nil, or_false,
        Prod.mk.injEq] at hk2
      rcases hk2 with ⟨-, h2⟩ | ⟨-, h2⟩ | ⟨-, h2⟩ | ⟨-, h2⟩ <;> subst h2 <;> decide

/-- A model response with an empty rubric breakdown. -/
def gradeRespEmpty : GradeModelResponse := ⟨none, none, [], none, []⟩

/-- Witness for the amended C6 at the empty breakdown and
`reasoning_quality`. -/
theorem canonical_criteria_bounds_for_synthesized_witness :
    (("reasoning_quality", (25 : Int)) ∈ canonicalDefaults) ∧
    ("reasoning_quality" ∉ gradeRespEmpty.rubric_breakdown.map normKey) ∧
    ∃ cs : ConceptScore,
      dictFind? "reasoning_quality" (grade_submission_sync gradeRespEmpty).concept_scores =
        some cs ∧ 0 ≤ cs.earned ∧ cs.earned ≤ cs.max :=
  ⟨by decide, by decide,
   (canonical_criteria_bounds_for_synthesized gradeRespEmpty "reasoning_quality" 25
     (by decide)).2 (by decide)⟩

/-- C7, counterexample: with a rubric declaring a total of 50, the
blueprint still reports `total_points = 100`. -/
theorem total_points_ignores_declared_total :
    (⟨50, []⟩ : GradingRubric).total_marks = 50 ∧
    (analyze_solution_sync ⟨none, none, none, none⟩ ⟨50, []⟩).total_points = 100 ∧
    (analyze_solution_sync ⟨none, none, none, none⟩ ⟨50, []⟩).total_points ≠
      (⟨50, []⟩ : GradingRubric).total_marks :=
  ⟨rfl, rfl, by decide⟩

/-- C7, amended: `analyze_solution_sync` always returns
`total_points = 100`, whatever the model response and whatever total the
rubric declares. -/
theorem total_points_always_100 (resp : AnalyzeModelResponse) (rubric : GradingRubric) :
    (analyze_solution_sync resp rubric).total_points = 100 := rfl

/-! ### Claim theorems: `extract_text_from_pdf` -/

theorem joinWith_foldl_length_le (sep : String) (as : List String) :
    ∀ acc : String, acc.length ≤ (as.foldl (fun acc x => acc ++ sep ++ x) acc).length := by
  induction as with
  | nil => intro acc; exact le_refl _
  | cons a as ih =>
    intro acc
    calc acc.length ≤ (acc ++ sep ++ a).length := by
          rw [String.length_append, String.length_append]; omega
      _ ≤ _ := ih (acc ++ sep ++ a)

theorem joinWith_ne_empty (sep : String) (l : List String) (hne : l ≠ [])
    (h : ∀ x ∈ l, x ≠ "") : joinWith sep l ≠ "" := by
  match l, hne with
  | a :: as, _ =>
    have ha : a ≠ "" := h a (List.mem_cons_self a as)
    have hlen : 0 < a.length := by
      cases a with
      | mk data =>
        cases data with
        | nil => exact absurd rfl ha
        | cons c cs => exact Nat.succ_pos cs.length
    have hj : 0 < (joinWith sep (a :: as)).length :=
      lt_of_lt_of_le hlen (joinWith_foldl_length_le sep as a)
    intro he
    rw [he] at hj
    exact absurd hj (by decide)

/-- C10.  `extract_text_from_pdf` raises exactly when the file is absent,
the suffix is not ".pdf" case-insensitively, the PDF has zero pages, or no
page yields non-blank text; otherwise it returns the non-empty join of
the stripped non-blank page texts, in page order, separated by
`"\n\n--- PAGE BREAK ---\n\n"` — never an empty string. -/
theorem extract_text_result_characterization (fs : String → Option (List String))
    (p : String) :
    ((∃ e, extract_text_from_pdf fs p = .error e) ↔
      (fs p = none ∨ pyLower (pathSuffix p) ≠ ".pdf" ∨ (fs p).getD [] = [] ∨
        (((fs p).getD []).map pyStrip).filter (fun t => t ≠ "") = [])) ∧
    (∀ s, extract_text_from_pdf fs p = .ok s →
      s = joinWith pageBreakSep ((((fs p).getD []).map pyStrip).filter (fun t => t ≠ "")) ∧
      s ≠ "") := by
  unfold extract_text_from_pdf
  rcases hfs : fs p with - | pages
  · refine ⟨⟨fun _ => Or.inl rfl, fun _ => ⟨"PDF not found: " ++ p, rfl⟩⟩, ?_⟩
    intro s hs
    exact Except.noConfusion hs
  · dsimp only
    by_cases hsuf : pyLower (pathSuffix p) = ".pdf"
    · rw [if_neg (fun hc => hc hsuf)]
      by_cases hlen : pages.length = 0
      · rw [if_pos hlen]
        have hpages : pages = [] := List.length_eq_zero.mp hlen
        subst hpages
        refine ⟨⟨fun _ => Or.inr (Or.inr (Or.inl rfl)),
          fun _ => ⟨"PDF has no pages", rfl⟩⟩, ?_⟩
        intro s hs
        exact Except.noConfusion hs
      · rw [if_neg hlen]
        by_cases hext : (pages.map pyStrip).filter (fun t => t ≠ "") = []
        · rw [if_pos hext]
          refine ⟨⟨fun _ => Or.inr (Or.inr (Or.inr hext)),
            fun _ => ⟨"No extractable text found in PDF", rfl⟩⟩, ?_⟩
          intro s hs
          exact Except.noConfusion hs
        · rw [if_neg hext]
          constructor
        -- no (caught) error here: refute each disjunct of the right side
          · constructor
            · rintro ⟨e, he⟩
              exact Except.noConfusion he
            · rintro (h1 | h2 | h3 | h4)
              · exact Option.noConfusion h1
              · exact absurd hsuf h2
              · have h3p : pages = [] := h3
                exact absurd (by rw [h3p]; rfl) hlen
              · exact absurd h4 hext
          · intro s hs
            have hs2 : joinWith pageBreakSep ((pages.map pyStrip).filter (fun t => t ≠ "")) = s :=
              Except.ok.inj hs
            refine ⟨hs2.symm, ?_⟩
            rw [← hs2]
            refine joinWith_ne_empty _ _ hext ?_
            intro x hx
            exact of_decide_eq_true (List.mem_filter.mp hx).2
    · rw [if_pos hsuf]
      refine ⟨⟨fun _ => Or.inr (Or.inl hsuf), fun _ => ⟨"Input file is not a PDF", rfl⟩⟩, ?_⟩
      intro s hs
      exact Except.noConfusion hs

/-- A one-PDF filesystem for the C10 witness. -/
def pdfFsEx : String → Option (List String) :=
  fun q => if q = "/tmp/doc.pdf" then some ["  hello ", "   ", "world"] else none

/-- Witness for C10: a PDF with one blank page among three produces the
join of the two stripped non-blank pages, which is non-empty. -/
theorem extract_text_result_characterization_witness :
    extract_text_from_pdf pdfFsEx "/tmp/doc.pdf" =
      .ok "hello\n\n--- PAGE BREAK ---\n\nworld" ∧
    ("hello\n\n--- PAGE BREAK ---\n\nworld" =
      joinWith pageBreakSep ((((pdfFsEx "/tmp/doc.pdf").getD []).map pyStrip).filter
        (fun t => t ≠ "")) ∧
     ("hello\n\n--- PAGE BREAK ---\n\nworld" : String) ≠ "") :=
  ⟨rfl,
   (extract_text_result_characterization pdfFsEx "/tmp/doc.pdf").2
     "hello\n\n--- PAGE BREAK ---\n\nworld" rfl⟩

/-! ### Claim theorems: orchestrator -/

/-- A concrete blueprint used by the orchestrator scenarios. -/
def bpNewton : GradingBlueprint :=
  ⟨[⟨"Newton second law", 30, "state F equals m times a"⟩],
   ["apply F equals m a"], ["F equals m a"], canonicalDefaults, 100⟩

/-- Store accepts the `processing` write but raises on the `completed`
write; fetch, extraction and analysis all succeed. -/
def envLateStoreFailure : BlueprintEnv :=
  ⟨true, fun v => if v = "completed" then .error "redis connection lost" else .ok (),
   .ok "/tmp/sol.pdf", fun _ => .ok "solution text", fun _ => .ok bpNewton, true⟩

/-- C1, failing run: when the `completed` status write raises after the
success callback was already delivered, the `except` block delivers a
second, error-carrying callback — the notifier is invoked twice, not
exactly once. -/
theorem blueprint_double_callback_on_late_store_failure :
    (process_blueprint_generation envLateStoreFailure "a1").callbacks =
      [⟨"a1", some bpNewton, none⟩, ⟨"a1", none, some "redis connection lost"⟩] ∧
    (process_blueprint_generation envLateStoreFailure "a1").callbacks.length ≠ 1 :=
  ⟨rfl, by decide⟩

/-- Store healthy; fetch succeeds; text extraction raises. -/
def envExtractFailure : BlueprintEnv :=
  ⟨true, fun _ => .ok (), .ok "/tmp/sol.pdf",
   fun _ => .error "No extractable text found in PDF", fun _ => .ok bpNewton, true⟩

/-- Store healthy; fetch succeeds; text extraction raises (grading job). -/
def envGradeExtractFailure : GradingEnv :=
  ⟨true, fun _ => .ok (), .ok "/tmp/sub.pdf",
   fun _ => .error "No extractable text found in PDF",
   fun _ _ => .ok ⟨80, 100, [], "good", [], [], false⟩, true⟩

/-- C2, failing run: both `except` blocks contain no `os.unlink`, so a
run whose fetch completed but whose extraction failed ends with the
fetched temp file never deleted. -/
theorem fetched_temp_file_leaks_on_failure :
    ((process_blueprint_generation envExtractFailure "a1").fetchedPath = some "/tmp/sol.pdf" ∧
     (process_blueprint_generation envExtractFailure "a1").unlinked = []) ∧
    ((process_grading envGradeExtractFailure "s1" bpNewton).fetchedPath = some "/tmp/sub.pdf" ∧
     (process_grading envGradeExtractFailure "s1" bpNewton).unlinked = []) :=
  ⟨⟨rfl, rfl⟩, ⟨rfl, rfl⟩⟩

/-- No store client (`redis_client is None`); the pipeline itself is
healthy. -/
def envStoreAbsent : BlueprintEnv :=
  ⟨false, fun _ => .ok (), .ok "/tmp/sol.pdf", fun _ => .ok "solution text",
   fun _ => .ok bpNewton, true⟩

/-- Store client present but every `set` raises; the pipeline itself is
healthy. -/
def envStoreRejects : BlueprintEnv :=
  ⟨true, fun _ => .error "redis down", .ok "/tmp/sol.pdf", fun _ => .ok "solution text",
   fun _ => .ok bpNewton, true⟩

/-- C3, failing run: with an absent store the blueprint callback carries
the blueprint, but with a store that rejects every operation the very
first status write raises and the job delivers an error callback instead
— the outcome is not identical. -/
theorem store_rejection_changes_callback_outcome :
    (process_blueprint_generation envStoreAbsent "a1").callbacks =
      [⟨"a1", some bpNewton, none⟩] ∧
    (process_blueprint_generation envStoreRejects "a1").callbacks =
      [⟨"a1", none, some "redis down"⟩] ∧
    (process_blueprint_generation envStoreRejects "a1").callbacks ≠
      (process_blueprint_generation envStoreAbsent "a1").callbacks :=
  ⟨rfl, rfl, by decide⟩

/-- A grading run fails at a pipeline step with reason `r`: the
`processing` status write, the fetch, the extraction, or the grading
engine call raises (the steps routed to the `except` block before the
success callback is sent). -/
def gradingPipelineFailure (env : GradingEnv) (bp : GradingBlueprint) (r : String) : Prop :=
  (env.storePresent = true ∧ env.storeSet "processing" = .error r) ∨
  ((env.storePresent = false ∨ env.storeSet "processing" = .ok ()) ∧
    (env.fetch = .error r ∨
     (∃ p, env.fetch = .ok p ∧
       (env.extractStep p = .error r ∨
        (∃ t, env.extractStep p = .ok t ∧
          env.gradeStep t (joinWith "\n" (bp.expected_steps ++ bp.key_facts)) = .error r)))))

/-- C8.  When a grading job fails at a pipeline step, no callback is sent
and (when the store is present and accepts the write) the last status
recorded is `failed:<reason>`. -/
theorem grading_failure_persists_failed_and_sends_no_callback
    (env : GradingEnv) (sid : String) (bp : GradingBlueprint) (r : String)
    (hfail : gradingPipelineFailure env bp r)
    (hpresent : env.storePresent = true)
    (hset : env.storeSet ("failed:" ++ r) = Except.ok ()) :
    (process_grading env sid bp).callbacks = [] ∧
    (process_grading env sid bp).statuses.getLast? = some ("failed:" ++ r) := by
  rcases env with ⟨present, setF, fetchR, extractF, gradeF, cb⟩
  simp only at hpresent hset
  subst hpresent
  unfold gradingPipelineFailure at hfail
  simp only [Bool.true_eq_false, false_or] at hfail
  rcases hfail with ⟨-, hp⟩ | ⟨hok, hrest⟩
  · simp [process_grading, gradingExceptBlock, hp, hset]
  · rcases hrest with hf | ⟨q, hfq, hx | ⟨t, hxt, hg⟩⟩
    · simp [process_grading, gradingExceptBlock, hok, hf, hset]
    · simp [process_grading, gradingExceptBlock, hok, hfq, hx, hset]
    · simp [process_grading, gradingExceptBlock, hok, hfq, hxt, hg, hset]

/-- Witness for C8: grading job whose extraction raises. -/
theorem grading_failure_persists_failed_and_sends_no_callback_witness :
    gradingPipelineFailure envGradeExtractFailure bpNewton
      "No extractable text found in PDF" ∧
    envGradeExtractFailure.storePresent = true ∧
    envGradeExtractFailure.storeSet ("failed:" ++ "No extractable text found in PDF") =
      Except.ok () ∧
    ((process_grading envGradeExtractFailure "s1" bpNewton).callbacks = [] ∧
     (process_grading envGradeExtractFailure "s1" bpNewton).statuses.getLast? =
       some ("failed:" ++ "No extractable text found in PDF")) :=
  ⟨Or.inr ⟨Or.inr rfl, Or.inr ⟨"/tmp/sub.pdf", rfl, Or.inl rfl⟩⟩, rfl, rfl,
   grading_failure_persists_failed_and_sends_no_callback envGradeExtractFailure "s1" bpNewton
     "No extractable text found in PDF"
     (Or.inr ⟨Or.inr rfl, Or.inr ⟨"/tmp/sub.pdf", rfl, Or.inl rfl⟩⟩) rfl rfl⟩

/-- A status value is terminal: `completed` or `failed:<reason>`. -/
def isTerminalStatus (s : String) : Bool :=
  s == "completed" || s.data.take 7 == "failed:".data

/-- C9.  In every run of either background task, every status recorded
before the last one is non-terminal — equivalently, once `completed` or
`failed:<reason>` is recorded, no further status is recorded in that
run. -/
theorem terminal_status_is_last_recorded
    (envB : BlueprintEnv) (aid : String) (envG : GradingEnv) (sid : String)
    (bp : GradingBlueprint) :
    ((process_blueprint_generation envB aid).statuses.dropLast.all
      (fun s => !(isTerminalStatus s))) = true ∧
    ((process_grading envG sid bp).statuses.dropLast.all
      (fun s => !(isTerminalStatus s))) = true := by
  constructor
  · rcases envB with ⟨present, setF, fetchR, extractF, analyzeF, cb⟩
    cases present
    · rcases hf : fetchR with eF | path
      · simp [process_blueprint_generation, blueprintExceptBlock, hf, List.dropLast] <;>
          decide
      · rcases hx : extractF path with eX | text
        · simp [process_blueprint_generation, blueprintExceptBlock, hf, hx,
            List.dropLast] <;> decide
        · rcases ha : analyzeF text with eA | bpv <;>
            simp [process_blueprint_generation, blueprintExceptBlock, hf, hx, ha,
              List.dropLast] <;> decide
    · rcases hp : setF "processing" with eP | uP
      · rcases hq : setF ("failed:" ++ eP) with e2 | u2 <;>
          simp [process_blueprint_generation, blueprintExceptBlock, hp, hq,
            List.dropLast] <;> decide
      · rcases hf : fetchR with eF | path
        · rcases hq : setF ("failed:" ++ eF) with e2 | u2 <;>
            simp [process_blueprint_generation, blueprintExceptBlock, hp, hf, hq,
              List.dropLast] <;> decide
        · rcases hx : extractF path with eX | text
          · rcases hq : setF ("failed:" ++ eX) with e2 | u2 <;>
              simp [process_blueprint_generation, blueprintExceptBlock, hp, hf, hx, hq,
                List.dropLast] <;> decide
          · rcases ha : analyzeF text with eA | bpv
            · rcases hq : setF ("failed:" ++ eA) with e2 | u2 <;>
                simp [process_blueprint_generation, blueprintExceptBlock, hp, hf, hx, ha,
                  hq, List.dropLast] <;> decide
            · rcases hc : setF "completed" with eC | uC
              · rcases hq : setF ("failed:" ++ eC) with e2 | u2 <;>
                  simp [process_blueprint_generation, blueprintExceptBlock, hp, hf, hx, ha,
                    hc, hq, List.dropLast] <;> decide
              · simp [process_blueprint_generation, blueprintExceptBlock, hp, hf, hx, ha,
                  hc, List.dropLast] <;> decide
  · rcases envG with ⟨present, setF, fetchR, extractF, gradeF, cb⟩
    cases present
    · rcases hf : fetchR with eF | path
      · simp [process_grading, gradingExceptBlock, hf, List.dropLast] <;> decide
      · rcases hx : extractF path with eX | text
        · simp [process_grading, gradingExceptBlock, hf, hx, List.dropLast] <;> decide
        · rcases hg : gradeF text (joinWith "\n" (bp.expected_steps ++ bp.key_facts))
            with eG | gr <;>
            simp [process_grading, gradingExceptBlock, hf, hx, hg, List.dropLast] <;> decide
    · rcases hp : setF "processing" with eP | uP
      · rcases hq : setF ("failed:" ++ eP) with e2 | u2 <;>
          simp [process_grading, gradingExceptBlock, hp, hq, List.dropLast] <;> decide
      · rcases hf : fetchR with eF | path
        · rcases hq : setF ("failed:" ++ eF) with e2 | u2 <;>
            simp [process_grading, gradingExceptBlock, hp, hf, hq, List.dropLast] <;> decide
        · rcases hx : extractF path with eX | text
          · rcases hq : setF ("failed:" ++ eX) with e2 | u2 <;>
              simp [process_grading, gradingExceptBlock, hp, hf, hx, hq,
                List.dropLast] <;> decide
          · rcases hg : gradeF text (joinWith "\n" (bp.expected_steps ++ bp.key_facts))
              with eG | gr
            · rcases hq : setF ("failed:" ++ eG) with e2 | u2 <;>
                simp [process_grading, gradingExceptBlock, hp, hf, hx, hg, hq,
                  List.dropLast] <;> decide
            · rcases hc : setF "completed" with eC | uC
              · rcases hq : setF ("failed:" ++ eC) with e2 | u2 <;>
                  simp [process_grading, gradingExceptBlock, hp, hf, hx, hg, hc, hq,
                    List.dropLast] <;> decide
              · simp [process_grading, gradingExceptBlock, hp, hf, hx, hg, hc,
                  List.dropLast] <;> decide

end PythonGrader
